import Mathlib

/-!
Shallow embedding of content/nw/src/policy_cert_verifier.cc, the policy
overlay certificate verifier of the nw namespace.  The component wraps an
external verification engine, prepends administratively supplied trust
anchors to every configuration handed to the engine, and signals a
zero-argument callback whenever a successful verification used one of the
additional anchors.

Modelling choices:
  certificates are identified by Nat; the source compares scoped_refptr
    values, so only object identity matters;
  the configuration record carries the additional trust anchor list plus
    the remaining boolean fields of net.CertVerifier.Config, copied
    verbatim by this component;
  the bound engine (the delegate of the source) is modelled by the
    configuration currently applied to it; reconfiguration calls made to
    the engine are returned explicitly as a list of EngineCall values so
    that the absence of a call is observable;
  the anchor-used callback is modelled by whether its handle is null and
    by an explicit Event trace recording each time it runs;
  Verify is given the behaviour of the underlying engine for the request
    as an EngineOutcome value (synchronous definitive code, or pending
    with a later completion) and produces the returned status code and the
    ordered trace of observable events;
  the DCHECK on the delegate in Verify and the unguarded dereference of
    the null delegate in SetConfig before initialization are modelled as
    distinct PrecondFailure values.
-/

namespace nw

/-- Certificates are modelled by identity: the source compares
scoped_refptr values elementwise, so only equality of certificate objects
is observable at this layer. -/
abbrev Cert := Nat

/-- Model of net.CertVerifier.Config: the additional trust anchor list and
the remaining fields, which this component never inspects or changes. -/
structure Config where
  enable_rev_checking : Bool := false
  require_rev_checking_local_anchors : Bool := false
  enable_sha1_local_anchors : Bool := false
  additional_trust_anchors : List Cert := []
  deriving DecidableEq, Repr

/-- The default-constructed configuration, the initial value of the
orig_config_ member of the source class. -/
def Config.default : Config :=
  Config.mk false false false []

/-- Model of net.CertVerifyResult restricted to the one field this
component reads. -/
structure CertVerifyResult where
  is_issued_by_additional_trust_anchor : Bool
  deriving DecidableEq, Repr

/-- net.OK, the success status code. -/
def netOK : Int := 0

/-- net.ERR_IO_PENDING, the status code the engine returns when the
request completes asynchronously. -/
def netERR_IO_PENDING : Int := -1

/-- Observable events of a verification request: the anchor-used callback
running, control returning to the caller of Verify with a status code, and
the original completion callback of the caller running with a code. -/
inductive Event where
  | anchorNotify
  | returnToCaller (error : Int)
  | completionCallback (error : Int)
  deriving DecidableEq, Repr

/-- Calls made to the underlying engine. -/
inductive EngineCall where
  | setConfig (c : Config)
  deriving DecidableEq, Repr

/-- How a call that needs the engine fails when no engine is bound:
dcheckFailed models the explicit DCHECK on the delegate at the top of
Verify; nullDeref models an unguarded dereference of the null delegate. -/
inductive PrecondFailure where
  | dcheckFailed
  | nullDeref
  deriving DecidableEq, Repr

/-- Model of net.CertVerifyProc restricted to the capability query this
component performs. -/
structure VerifyProc where
  supportsAdditionalTrustAnchors : Bool
  deriving DecidableEq, Repr

/-- MaybeSignalAnchorUse (lines 55 to 63): runs the anchor-used callback
unless the status is not net.OK, or the result flag is unset, or the
callback handle is null.  The returned list is the trace of callback
runs. -/
def MaybeSignalAnchorUse (error : Int) (anchor_used_callback_null : Bool)
    (verify_result : CertVerifyResult) : List Event :=
  if error ≠ netOK ∨ verify_result.is_issued_by_additional_trust_anchor = false ∨
      anchor_used_callback_null = true then
    []
  else
    [Event.anchorNotify]

/-- CompleteAndSignalAnchorUse (lines 65 to 72): on asynchronous
completion, first the anchor-use check, then the original completion
callback with the same code. -/
def CompleteAndSignalAnchorUse (anchor_used_callback_null : Bool)
    (verify_result : CertVerifyResult) (error : Int) : List Event :=
  MaybeSignalAnchorUse error anchor_used_callback_null verify_result ++
    [Event.completionCallback error]

/-- std vector insert of the range xs before position i, as used on the
additional_trust_anchors vector. -/
def vectorInsertAt (v : List Cert) (i : Nat) (xs : List Cert) : List Cert :=
  v.take i ++ xs ++ v.drop i

/-- ExtendTrustAnchors (lines 74 to 82): copy the configuration and insert
the anchors at the front of the copied additional_trust_anchors vector. -/
def ExtendTrustAnchors (config : Config) (trust_anchors : List Cert) : Config :=
  let new_config := config
  { new_config with
      additional_trust_anchors :=
        vectorInsertAt new_config.additional_trust_anchors 0 trust_anchors }

/-- State of a PolicyCertVerifier instance: whether the anchor-used
callback handle is null, the stored anchor list, the stored base
configuration, and the bound engine (none before InitializeOnIOThread,
afterwards the configuration currently applied to the engine). -/
structure PolicyCertVerifier where
  anchor_used_callback_null : Bool
  trust_anchors : List Cert
  orig_config : Config
  delegate : Option Config
  deriving DecidableEq, Repr

/-- The constructor (lines 86 to 90): stores the callback handle; the
anchor list is empty, the base configuration default-constructed, and no
engine is bound. -/
def PolicyCertVerifier.construct (anchor_used_callback_null : Bool) : PolicyCertVerifier :=
  PolicyCertVerifier.mk anchor_used_callback_null [] Config.default none

/-- InitializeOnIOThread (lines 95 to 105): warn when the procedure does
not support additional trust anchors, bind a fresh engine, and apply the
extended configuration to it.  Returns the new state, the calls made to
the engine, and the warnings logged. -/
def PolicyCertVerifier.InitializeOnIOThread (s : PolicyCertVerifier)
    (verify_proc : VerifyProc) :
    PolicyCertVerifier × List EngineCall × List String :=
  let warnings :=
    if verify_proc.supportsAdditionalTrustAnchors = false then
      ["Additional trust anchors not supported on the current platform!"]
    else
      []
  let new_config := ExtendTrustAnchors s.orig_config s.trust_anchors
  ({ s with delegate := some new_config },
    [EngineCall.setConfig new_config], warnings)

/-- SetTrustAnchors (lines 107 to 115): return at once when the new list
equals the stored one; otherwise store it, and when an engine is bound
apply the recomputed extended configuration to it. -/
def PolicyCertVerifier.SetTrustAnchors (s : PolicyCertVerifier)
    (trust_anchors : List Cert) : PolicyCertVerifier × List EngineCall :=
  if trust_anchors = s.trust_anchors then
    (s, [])
  else
    let s' := { s with trust_anchors := trust_anchors }
    match s'.delegate with
    | none => (s', [])
    | some _ =>
        let new_config := ExtendTrustAnchors s'.orig_config s'.trust_anchors
        ({ s' with delegate := some new_config },
          [EngineCall.setConfig new_config])

/-- The behaviour of the underlying engine on one verification request:
either a definitive code and result returned synchronously, or
ERR_IO_PENDING now (with whatever the result object holds at that moment)
and a completion with a code and result later. -/
inductive EngineOutcome where
  | sync (error : Int) (result : CertVerifyResult)
  | async (pending_snapshot : CertVerifyResult) (error : Int) (result : CertVerifyResult)
  deriving DecidableEq, Repr

/-- The status code and result with which a request finally completes. -/
def completionOf : EngineOutcome → Int × CertVerifyResult
  | EngineOutcome.sync error result => (error, result)
  | EngineOutcome.async _ error result => (error, result)

/-- The event that hands the completed status to the caller: for a
synchronous completion the return from Verify itself, for an asynchronous
one the original completion callback. -/
def completionEvent : EngineOutcome → Event
  | EngineOutcome.sync error _ => Event.returnToCaller error
  | EngineOutcome.async _ error _ => Event.completionCallback error

/-- Verify (lines 117 to 134): DCHECK the delegate, wrap the completion
callback with CompleteAndSignalAnchorUse, call the engine, run the
anchor-use check on the code the engine returned, and hand that code back
to the caller.  On a synchronous completion the engine never runs the
wrapped callback; on an asynchronous one the engine returns
ERR_IO_PENDING, the post-call check sees that code, and the wrapped
callback runs later with the final code and result. -/
def PolicyCertVerifier.Verify (s : PolicyCertVerifier) (outcome : EngineOutcome) :
    Except PrecondFailure (Int × List Event) :=
  match s.delegate with
  | none => Except.error PrecondFailure.dcheckFailed
  | some _ =>
      match outcome with
      | EngineOutcome.sync error result =>
          Except.ok (error,
            MaybeSignalAnchorUse error s.anchor_used_callback_null result ++
              [Event.returnToCaller error])
      | EngineOutcome.async pending_snapshot error result =>
          Except.ok (netERR_IO_PENDING,
            MaybeSignalAnchorUse netERR_IO_PENDING s.anchor_used_callback_null
                pending_snapshot ++
              [Event.returnToCaller netERR_IO_PENDING] ++
              CompleteAndSignalAnchorUse s.anchor_used_callback_null result error)

/-- SetConfig (lines 136 to 139): store the new base configuration, then
apply the extended configuration through the delegate.  No DCHECK guards
the delegate here: before initialization the null delegate is dereferenced
directly. -/
def PolicyCertVerifier.SetConfig (s : PolicyCertVerifier) (config : Config) :
    Except PrecondFailure (PolicyCertVerifier × List EngineCall) :=
  let s' := { s with orig_config := config }
  match s'.delegate with
  | none => Except.error PrecondFailure.nullDeref
  | some _ =>
      let new_config := ExtendTrustAnchors s'.orig_config s'.trust_anchors
      Except.ok ({ s' with delegate := some new_config },
        [EngineCall.setConfig new_config])

/-- The status code Verify hands back to its caller, when the precondition
holds. -/
def verifyReturn (s : PolicyCertVerifier) (outcome : EngineOutcome) : Option Int :=
  match s.Verify outcome with
  | Except.ok (ret, _) => some ret
  | Except.error _ => none

/-- The event trace of a Verify call, when the precondition holds. -/
def verifyTrace (s : PolicyCertVerifier) (outcome : EngineOutcome) : List Event :=
  match s.Verify outcome with
  | Except.ok (_, tr) => tr
  | Except.error _ => []

/-- Whether a Verify call passes its precondition check and reaches the
engine. -/
def verifySucceeds (s : PolicyCertVerifier) (outcome : EngineOutcome) : Bool :=
  match s.Verify outcome with
  | Except.ok _ => true
  | Except.error _ => false

/-- A concrete initialized verifier with a non-null callback handle, used
by the witnesses. -/
def sampleVerifier : PolicyCertVerifier :=
  PolicyCertVerifier.mk false [] Config.default (some Config.default)

end nw

namespace nw

/-- ExtendTrustAnchors with the empty anchor list returns the
configuration unchanged. -/
theorem extendTrustAnchors_nil (c : Config) : ExtendTrustAnchors c [] = c := by
  cases c
  simp [ExtendTrustAnchors, vectorInsertAt]

/-- After SetTrustAnchors the stored anchor list equals the argument, and
at most one reconfiguration call was made to the engine. -/
theorem setTrustAnchors_stores (t : PolicyCertVerifier) (A : List Cert) :
    ((t.SetTrustAnchors A).1).trust_anchors = A ∧
      (t.SetTrustAnchors A).2.length ≤ 1 := by
  unfold PolicyCertVerifier.SetTrustAnchors
  by_cases hA : A = t.trust_anchors
  · simp [hA]
  · cases hd : t.delegate <;> simp [hA, hd]

/-- C1: ExtendTrustAnchors is a pure function whose result has the given
anchors prepended, in order, to the additional trust anchor list of the
base configuration, with every other field copied unchanged; the base
configuration itself is not modified (the function copies it and edits
only the copy). -/
theorem extendTrustAnchors_prepends (c : Config) (A : List Cert) :
    ExtendTrustAnchors c A =
      { c with additional_trust_anchors := A ++ c.additional_trust_anchors } := by
  cases c
  simp [ExtendTrustAnchors, vectorInsertAt]

/-- C2: SetTrustAnchors with a list equal to the stored one is a no-op:
the whole state, including the stored list, the base configuration and
the engine configuration, is unchanged and no call reaches the engine;
consequently two successive calls with the same list make at most one
reconfiguration call in total, the second call making none. -/
theorem setTrustAnchors_identical_noop (s : PolicyCertVerifier) (A : List Cert)
    (h : s.trust_anchors = A) :
    s.SetTrustAnchors A = (s, []) ∧
      ∀ t : PolicyCertVerifier,
        ((t.SetTrustAnchors A).1).SetTrustAnchors A = ((t.SetTrustAnchors A).1, []) ∧
          (t.SetTrustAnchors A).2.length +
              (((t.SetTrustAnchors A).1).SetTrustAnchors A).2.length ≤ 1 := by
  have noop : ∀ u : PolicyCertVerifier, u.trust_anchors = A →
      u.SetTrustAnchors A = (u, []) := by
    intro u hu
    simp [PolicyCertVerifier.SetTrustAnchors, hu]
  refine ⟨noop s h, fun t => ?_⟩
  have hstore := setTrustAnchors_stores t A
  have h2 := noop _ hstore.1
  refine ⟨h2, ?_⟩
  rw [h2]
  simpa using hstore.2

/-- Witness for C2 at a concrete input. -/
theorem setTrustAnchors_identical_noop_witness :
    (PolicyCertVerifier.construct false).SetTrustAnchors [] =
      (PolicyCertVerifier.construct false, []) :=
  (setTrustAnchors_identical_noop (PolicyCertVerifier.construct false) [] rfl).1

/-- C3: the anchor-used callback runs exactly when the status code is
net.OK, the result is flagged as issued by an additional trust anchor,
and the callback handle is non-null; in every other case it does not run
at all. -/
theorem maybeSignalAnchorUse_iff (e : Int) (cb_null : Bool) (r : CertVerifyResult) :
    (MaybeSignalAnchorUse e cb_null r = [Event.anchorNotify] ↔
      e = netOK ∧ r.is_issued_by_additional_trust_anchor = true ∧ cb_null = false) ∧
    (MaybeSignalAnchorUse e cb_null r = [Event.anchorNotify] ∨
      MaybeSignalAnchorUse e cb_null r = []) := by
  obtain ⟨b⟩ := r
  unfold MaybeSignalAnchorUse
  by_cases h1 : e = netOK <;> cases b <;> cases cb_null <;> simp [h1]

/-- Witness for C3 at a concrete input. -/
theorem maybeSignalAnchorUse_iff_witness :
    MaybeSignalAnchorUse 0 false (CertVerifyResult.mk true) = [Event.anchorNotify] :=
  (maybeSignalAnchorUse_iff 0 false (CertVerifyResult.mk true)).1.mpr ⟨rfl, rfl, rfl⟩

/-- C10: extending a configuration with an empty anchor list is the
identity, and when the stored anchor set is empty the configuration the
engine receives at initialization is exactly the stored base
configuration. -/
theorem extendTrustAnchors_empty_identity (c : Config) (s : PolicyCertVerifier)
    (p : VerifyProc) (h : s.trust_anchors = []) :
    ExtendTrustAnchors c [] = c ∧
      (s.InitializeOnIOThread p).1.delegate = some s.orig_config := by
  refine ⟨extendTrustAnchors_nil c, ?_⟩
  simp [PolicyCertVerifier.InitializeOnIOThread, h, extendTrustAnchors_nil]

/-- Witness for C10 at a concrete input. -/
theorem extendTrustAnchors_empty_identity_witness :
    ExtendTrustAnchors Config.default [] = Config.default ∧
      ((PolicyCertVerifier.construct false).InitializeOnIOThread
          (VerifyProc.mk true)).1.delegate =
        some (PolicyCertVerifier.construct false).orig_config :=
  extendTrustAnchors_empty_identity Config.default
    (PolicyCertVerifier.construct false) (VerifyProc.mk true) rfl

end nw

namespace nw

/-- SetTrustAnchors on a verifier with no engine bound only stores the
anchors: the rest of the state is untouched and no engine call is made. -/
theorem setTrustAnchors_uninitialized (s : PolicyCertVerifier) (A : List Cert)
    (h : s.delegate = none) :
    (s.SetTrustAnchors A).1 = { s with trust_anchors := A } ∧
      (s.SetTrustAnchors A).2 = [] := by
  unfold PolicyCertVerifier.SetTrustAnchors
  by_cases hA : A = s.trust_anchors
  · simp [hA]
  · simp [hA, h]

/-- C4: when a request completes successfully with the additional-anchor
flag set and a non-null handle, the callback runs exactly once in the
trace of the request, and it runs immediately before the event that hands
the completed status to the caller (the return from Verify on the
synchronous path, the original completion callback on the asynchronous
path), hence never twice and never after completion. -/
theorem verify_signals_exactly_once (s : PolicyCertVerifier) (o : EngineOutcome)
    (r : CertVerifyResult) (hd : s.delegate ≠ none)
    (hnull : s.anchor_used_callback_null = false)
    (hc : completionOf o = (netOK, r))
    (hflag : r.is_issued_by_additional_trust_anchor = true) :
    (verifyTrace s o).count Event.anchorNotify = 1 ∧
      (verifyTrace s o).getLast? = some (completionEvent o) ∧
      (verifyTrace s o).dropLast.getLast? = some Event.anchorNotify := by
  obtain ⟨cfg, hcfg⟩ : ∃ cfg, s.delegate = some cfg := by
    cases hdel : s.delegate
    · exact absurd hdel hd
    · exact ⟨_, rfl⟩
  cases o with
  | sync e res =>
      simp [completionOf, Prod.ext_iff] at hc
      obtain ⟨he, hr⟩ := hc
      subst he
      subst hr
      have hT : verifyTrace s (EngineOutcome.sync netOK res) =
          [Event.anchorNotify, Event.returnToCaller netOK] := by
        simp [verifyTrace, PolicyCertVerifier.Verify, hcfg,
          MaybeSignalAnchorUse, hflag, hnull]
      rw [hT]
      simp [completionEvent, netOK]
  | async ps e res =>
      simp [completionOf, Prod.ext_iff] at hc
      obtain ⟨he, hr⟩ := hc
      subst he
      subst hr
      have hT : verifyTrace s (EngineOutcome.async ps netOK res) =
          [Event.returnToCaller netERR_IO_PENDING, Event.anchorNotify,
            Event.completionCallback netOK] := by
        simp [verifyTrace, PolicyCertVerifier.Verify, hcfg,
          CompleteAndSignalAnchorUse, MaybeSignalAnchorUse, hflag, hnull,
          netOK, netERR_IO_PENDING]
      rw [hT]
      simp [completionEvent, netOK, netERR_IO_PENDING]

/-- Witness for C4 at a concrete input. -/
theorem verify_signals_exactly_once_witness :
    (verifyTrace sampleVerifier
          (EngineOutcome.sync 0 (CertVerifyResult.mk true))).count
        Event.anchorNotify = 1 ∧
      (verifyTrace sampleVerifier
          (EngineOutcome.sync 0 (CertVerifyResult.mk true))).getLast? =
        some (completionEvent (EngineOutcome.sync 0 (CertVerifyResult.mk true))) ∧
      (verifyTrace sampleVerifier
          (EngineOutcome.sync 0 (CertVerifyResult.mk true))).dropLast.getLast? =
        some Event.anchorNotify :=
  verify_signals_exactly_once sampleVerifier
    (EngineOutcome.sync 0 (CertVerifyResult.mk true)) (CertVerifyResult.mk true)
    (by decide) rfl rfl rfl

/-- C5: Verify hands the status code of the engine back to its caller
unchanged on the synchronous path, and on the asynchronous path it returns
ERR_IO_PENDING and the original completion callback of the caller finally
receives the completion code of the engine unchanged, whatever the result
flag and callback handle are. -/
theorem verify_passes_status_unchanged (s : PolicyCertVerifier)
    (h : s.delegate ≠ none) :
    (∀ e r, verifyReturn s (EngineOutcome.sync e r) = some e) ∧
      ∀ ps e r,
        verifyReturn s (EngineOutcome.async ps e r) = some netERR_IO_PENDING ∧
          (verifyTrace s (EngineOutcome.async ps e r)).getLast? =
            some (Event.completionCallback e) := by
  obtain ⟨cfg, hcfg⟩ : ∃ cfg, s.delegate = some cfg := by
    cases hdel : s.delegate
    · exact absurd hdel h
    · exact ⟨_, rfl⟩
  refine ⟨fun e r => ?_, fun ps e r => ⟨?_, ?_⟩⟩
  · simp [verifyReturn, PolicyCertVerifier.Verify, hcfg]
  · simp [verifyReturn, PolicyCertVerifier.Verify, hcfg]
  · simp [verifyTrace, PolicyCertVerifier.Verify, hcfg,
      CompleteAndSignalAnchorUse, List.append_assoc]
    rw [← List.cons_append, List.getLast?_concat]

/-- Witness for C5 at a concrete input. -/
theorem verify_passes_status_unchanged_witness :
    verifyReturn sampleVerifier (EngineOutcome.sync 7 (CertVerifyResult.mk false)) =
      some 7 :=
  (verify_passes_status_unchanged sampleVerifier (by decide)).1 7
    (CertVerifyResult.mk false)

/-- C6: anchors set before initialization are stored without any engine
call, and at initialization the configuration applied to the fresh engine
is the stored base configuration with those anchors prepended. -/
theorem setTrustAnchors_before_initialization_applies (s : PolicyCertVerifier)
    (A : List Cert) (p : VerifyProc) (h : s.delegate = none) :
    (s.SetTrustAnchors A).2 = [] ∧
      ((s.SetTrustAnchors A).1).trust_anchors = A ∧
      ((s.SetTrustAnchors A).1).delegate = none ∧
      (((s.SetTrustAnchors A).1).InitializeOnIOThread p).2.1 =
        [EngineCall.setConfig (ExtendTrustAnchors s.orig_config A)] ∧
      ((((s.SetTrustAnchors A).1).InitializeOnIOThread p).1).delegate =
        some (ExtendTrustAnchors s.orig_config A) := by
  obtain ⟨h1, h2⟩ := setTrustAnchors_uninitialized s A h
  rw [h1, h2]
  refine ⟨rfl, rfl, h, ?_, ?_⟩ <;>
    simp [PolicyCertVerifier.InitializeOnIOThread]

/-- Witness for C6 at a concrete input. -/
theorem setTrustAnchors_before_initialization_applies_witness :
    ((PolicyCertVerifier.construct true).SetTrustAnchors [5]).2 = [] ∧
      (((PolicyCertVerifier.construct true).SetTrustAnchors [5]).1).trust_anchors =
        [5] ∧
      (((PolicyCertVerifier.construct true).SetTrustAnchors [5]).1).delegate =
        none ∧
      ((((PolicyCertVerifier.construct true).SetTrustAnchors [5]).1).InitializeOnIOThread
            (VerifyProc.mk false)).2.1 =
        [EngineCall.setConfig
          (ExtendTrustAnchors (PolicyCertVerifier.construct true).orig_config [5])] ∧
      (((((PolicyCertVerifier.construct true).SetTrustAnchors
                [5]).1).InitializeOnIOThread (VerifyProc.mk false)).1).delegate =
        some (ExtendTrustAnchors (PolicyCertVerifier.construct true).orig_config [5]) :=
  setTrustAnchors_before_initialization_applies (PolicyCertVerifier.construct true)
    [5] (VerifyProc.mk false) rfl

/-- C7: before initialization Verify fails fast on the DCHECK of the
delegate, and on any state produced by initialization the check and the
engine dereference are safe: Verify reaches the engine and succeeds. -/
theorem verify_requires_initialized_state (cb_null : Bool) (o : EngineOutcome) :
    (PolicyCertVerifier.construct cb_null).Verify o =
        Except.error PrecondFailure.dcheckFailed ∧
      ∀ (s : PolicyCertVerifier) (p : VerifyProc) (o' : EngineOutcome),
        verifySucceeds ((s.InitializeOnIOThread p).1) o' = true := by
  refine ⟨rfl, fun s p o' => ?_⟩
  cases o' <;> rfl

/-- Witness for C7 at a concrete input. -/
theorem verify_requires_initialized_state_witness :
    (PolicyCertVerifier.construct false).Verify
        (EngineOutcome.sync 0 (CertVerifyResult.mk false)) =
      Except.error PrecondFailure.dcheckFailed :=
  (verify_requires_initialized_state false
      (EngineOutcome.sync 0 (CertVerifyResult.mk false))).1

/-- Counterexample to C8 as stated: SetConfig before initialization does
not hit a debug assertion; it dereferences the null delegate with no
guard, which is a different failure from the checked one in Verify. -/
theorem setConfig_uninitialized_unguarded :
    (PolicyCertVerifier.construct false).SetConfig Config.default =
        Except.error PrecondFailure.nullDeref ∧
      PrecondFailure.nullDeref ≠ PrecondFailure.dcheckFailed :=
  ⟨rfl, by decide⟩

/-- C8 amended: calling SetConfig before initialization dereferences the
null delegate with no precondition check; once initialized, SetConfig
replaces the stored base configuration, recomputes the extended
configuration with the current anchors prepended, and applies it to the
engine. -/
theorem setConfig_applies_extended_config (s : PolicyCertVerifier) (c : Config) :
    (s.delegate = none → s.SetConfig c = Except.error PrecondFailure.nullDeref) ∧
      (s.delegate ≠ none →
        s.SetConfig c =
          Except.ok
            ({ s with
                orig_config := c
                delegate := some (ExtendTrustAnchors c s.trust_anchors) },
              [EngineCall.setConfig (ExtendTrustAnchors c s.trust_anchors)])) := by
  constructor
  · intro h
    simp [PolicyCertVerifier.SetConfig, h]
  · intro h
    obtain ⟨cfg, hcfg⟩ : ∃ cfg, s.delegate = some cfg := by
      cases hdel : s.delegate
      · exact absurd hdel h
      · exact ⟨_, rfl⟩
    simp [PolicyCertVerifier.SetConfig, hcfg]

/-- Witness for the amended C8 at a concrete input. -/
theorem setConfig_applies_extended_config_witness :
    sampleVerifier.SetConfig (Config.mk true false false [9]) =
      Except.ok
        ({ sampleVerifier with
            orig_config := Config.mk true false false [9]
            delegate :=
              some (ExtendTrustAnchors (Config.mk true false false [9])
                sampleVerifier.trust_anchors) },
          [EngineCall.setConfig
            (ExtendTrustAnchors (Config.mk true false false [9])
              sampleVerifier.trust_anchors)]) :=
  (setConfig_applies_extended_config sampleVerifier
      (Config.mk true false false [9])).2 (by decide)

/-- C9: initialization proceeds identically whether or not the procedure
supports additional trust anchors: the engine is bound, the extended
configuration is applied to it, and the only difference is the warning,
logged exactly when support is missing. -/
theorem initialize_succeeds_regardless_of_support (s : PolicyCertVerifier)
    (p : VerifyProc) :
    (s.InitializeOnIOThread p).1.delegate =
        some (ExtendTrustAnchors s.orig_config s.trust_anchors) ∧
      (s.InitializeOnIOThread p).2.1 =
        [EngineCall.setConfig (ExtendTrustAnchors s.orig_config s.trust_anchors)] ∧
      ((s.InitializeOnIOThread p).2.2 = [] ↔
        p.supportsAdditionalTrustAnchors = true) ∧
      (s.InitializeOnIOThread p).1 = (s.InitializeOnIOThread (VerifyProc.mk true)).1 ∧
      (s.InitializeOnIOThread p).2.1 =
        (s.InitializeOnIOThread (VerifyProc.mk true)).2.1 := by
  obtain ⟨b⟩ := p
  cases b <;> simp [PolicyCertVerifier.InitializeOnIOThread]

/-- Witness for C9 at a concrete input. -/
theorem initialize_succeeds_regardless_of_support_witness :
    ((PolicyCertVerifier.construct false).InitializeOnIOThread
          (VerifyProc.mk false)).1.delegate =
      some (ExtendTrustAnchors (PolicyCertVerifier.construct false).orig_config
        (PolicyCertVerifier.construct false).trust_anchors) :=
  (initialize_succeeds_regardless_of_support (PolicyCertVerifier.construct false)
      (VerifyProc.mk false)).1

end nw
